import Mathlib

/-!
Shallow embedding of the `index-contract` repository (Rust) for verification
of its natural-language specification.

Embedded modules:
* `src/contracts/index_executor/src/steps/bridge.rs` — `BridgeStep` and its
  `Runner` implementation (`runnable` / `run` / `check`);
* `src/contracts/index_executor/src/tx.rs` — indexer client
  (`send_request` / `get_tx` / `check_tx`);
* `src/contracts/index_executor/src/actions/phala/xtransfer.rs` — the
  `XTransferXcm` call encoder (XCM v3);
* `src/contracts/index_executor/src/actions/polkadot/xcm.rs` — the
  `PolkadotXcm` call encoder (XCM v2).

Conventions: `u8`/`u32`/`u64`/`u128` values are `Nat`; byte strings
(`Vec<u8>`, `[u8; N]`) are `List Nat`; Rust `Result<T, &'static str>`
becomes `Except Err T`, where `Err` also has a constructor for an
arithmetic-overflow panic (checked `u128` subtraction underflow aborts
rather than returning).  Live chain queries (`get_nonce`, `get_balance`),
the registry, the bridge executor, and the HTTP transport are external
capabilities; they are modelled as oracle functions carried by the context.
-/

namespace IndexContract

/-- Outcome of a fallible operation: either a static error string, as in the
source (`Result<_, &'static str>`), or an arithmetic panic (Rust `u128`
subtraction underflow / out-of-range slice index abort). -/
inductive Err where
  | msg (s : String)
  | panicArith
deriving DecidableEq, Repr

abbrev Res (α : Type) := Except Err α

instance {ε α : Type} [DecidableEq ε] [DecidableEq α] : DecidableEq (Except ε α)
  | Except.ok a, Except.ok b =>
    if h : a = b then isTrue (by rw [h])
    else isFalse (by intro hh; cases hh; exact h rfl)
  | Except.ok _, Except.error _ => isFalse (by intro h; cases h)
  | Except.error _, Except.ok _ => isFalse (by intro h; cases h)
  | Except.error e, Except.error f =>
    if h : e = f then isTrue (by rw [h])
    else isFalse (by intro hh; cases hh; exact h rfl)

/-- Helper for `Option::ok_or`: convert an `Option` into a `Res`, with the given error
for the `None` case. -/
def okOr {α : Type} (o : Option α) (e : Err) : Res α :=
  match o with
  | some a => Except.ok a
  | none => Except.error e

/-! ## Bridge step (`src/contracts/index_executor/src/steps/bridge.rs`) -/

/-- Structure `BridgeStep` — definition of a bridge operation step (bridge.rs 14-39). -/
structure BridgeStep where
  /-- Asset id on source chain (`from`). -/
  «from» : List Nat
  /-- Name of source chain. -/
  source_chain : String
  /-- Asset on dest chain. -/
  «to» : List Nat
  /-- Name of dest chain. -/
  dest_chain : String
  /-- Fee of the bridge represented by the transfer asset. -/
  fee : Nat
  /-- Capacity of the step. -/
  cap : Nat
  /-- Flow of the step. -/
  flow : Nat
  /-- Original relayer account balance of asset on source chain. -/
  b0 : Option Nat
  /-- Original relayer account balance of asset on dest chain. -/
  b1 : Option Nat
  /-- Bridge amount. -/
  amount : Nat
  /-- Recipient account on dest chain. -/
  recipient : Option (List Nat)
deriving DecidableEq

/-- Chain type tag (`crate::chain::ChainType`, used by bridge.rs 118-121). -/
inductive ChainType where
  | Evm
  | Sub
deriving DecidableEq

/-- The chain metadata `BridgeStep::check` reads from the registry. -/
structure Chain where
  chain_type : ChainType
  tx_indexer_url : String
deriving DecidableEq

/-- Mirrors `pink_subrpc::ExtraParam` as used at bridge.rs 89-93 (tip, explicit
nonce, era window). -/
structure ExtraParam where
  tip : Nat
  nonce : Option Nat
  era : Option Nat
deriving DecidableEq

/-- A registered bridge executor: its `transfer(signer, asset, recipient,
amount, extra)` primitive submits a transaction and returns a tx id; its
own (richer) error type is modelled as an arbitrary `String`. -/
structure BridgeExecutor where
  transfer : Nat → List Nat → List Nat → Nat → ExtraParam → Except String (List Nat)

/-- The execution context seen by a bridge step.  `signer` is the opaque
signer handle; `account20` / `account32` are the worker account's two
derived representations (`AccountInfo::from(context.signer)`); the
remaining fields are the live-query / registry capabilities the step
consumes (`AccountInfo::get_nonce`, `AccountInfo::get_balance`,
`registry.get_chain`, `tx::check_tx` at the source chain's indexer, and
`Context::get_bridge_executor`), modelled as oracles. -/
structure Context where
  signer : Nat
  account20 : List Nat
  account32 : List Nat
  get_nonce : String → Res Nat
  get_balance : String → List Nat → Res Nat
  get_chain : String → Option Chain
  check_tx : String → List Nat → Nat → Res Bool
  get_bridge_executor : String → String → Option BridgeExecutor

/-- Embeds `BridgeStep::runnable` (bridge.rs 50-69): first check the worker
account's on-chain nonce on the source chain — if it is greater than the
step's assigned nonce the step already executed, return `false`; second
check the worker's balance of the spend asset on the source chain and
return whether it covers `amount`. -/
def BridgeStep.runnable (self : BridgeStep) (nonce : Nat) (context : Context) :
    Res Bool := do
  let onchain_nonce ← context.get_nonce self.source_chain
  if onchain_nonce > nonce then
    return false
  let onchain_balance ← context.get_balance self.source_chain self.«from»
  return decide (onchain_balance ≥ self.amount)

/-- Embeds `BridgeStep::run` (bridge.rs 71-106): require the recipient
(`MissingRecipient`), resolve the bridge executor for the
(source, dest) pair (`MissingExecutor`), then invoke its `transfer`
primitive with the step's asset, recipient and amount and
`ExtraParam { tip: 0, nonce: Some(nonce), era: None }`; any transfer
failure is collapsed to `BridgeFailed`. -/
def BridgeStep.run (self : BridgeStep) (nonce : Nat) (context : Context) :
    Res (List Nat) := do
  let signer := context.signer
  let recipient ← okOr self.recipient (Err.msg "MissingRecipient")
  let executor ← okOr (context.get_bridge_executor self.source_chain self.dest_chain)
      (Err.msg "MissingExecutor")
  let tx_id ← match executor.transfer signer self.«from» recipient self.amount
      ⟨0, some nonce, none⟩ with
    | Except.ok id => Except.ok id
    | Except.error _ => Except.error (Err.msg "BridgeFailed")
  return tx_id

/-- Embeds `BridgeStep::check` (bridge.rs 110-138): look up the source chain
(`MissingChain`), pick the worker-account representation by chain type,
ask the indexer whether the transaction at that account and nonce settled;
if settled, read the live balances on both chains, require both baselines
(`MissingB0` / `MissingB1`), and confirm only if the source balance
dropped by exactly `amount` and the destination balance rose above `b1`.
The source computes the drop as the `u128` subtraction `b0 - latest_b0`,
which panics (checked arithmetic) when `latest_b0 > b0`; the panic is
modelled as `Err.panicArith`. -/
def BridgeStep.check (self : BridgeStep) (nonce : Nat) (context : Context) :
    Res Bool := do
  let chain ← okOr (context.get_chain self.source_chain) (Err.msg "MissingChain")
  let account := match chain.chain_type with
    | ChainType.Evm => context.account20
    | ChainType.Sub => context.account32
  let settled ← context.check_tx chain.tx_indexer_url account nonce
  if settled then
    let latest_b0 ← context.get_balance self.source_chain self.«from»
    let latest_b1 ← context.get_balance self.dest_chain self.«to»
    let b0 ← okOr self.b0 (Err.msg "MissingB0")
    let b1 ← okOr self.b1 (Err.msg "MissingB1")
    if latest_b0 ≤ b0 then
      return (decide (b0 - latest_b0 = self.amount) && decide (latest_b1 > b1))
    else
      Except.error Err.panicArith
  else
    return false

/-! ## Indexer client (`src/contracts/index_executor/src/tx.rs`) -/

/-- One transaction record of the indexer response body as deserialized
(tx.rs `Tx`): the account is still the raw JSON string. -/
structure Tx where
  id : String
  account : String
  nonce : Nat
  result : Bool
  block_number : Nat
  timestamp : String
deriving DecidableEq

/-- tx.rs `QueryResult`: the `transactions` array of the response. -/
structure QueryResult where
  transactions : List Tx
deriving DecidableEq

/-- tx.rs `ResponseData`: the full JSON response shape
`{ data: { transactions: [...] } }`. -/
structure ResponseData where
  data : QueryResult
deriving DecidableEq

/-- tx.rs `Transaction`: the public record, with the account hex-decoded
to raw bytes. -/
structure Transaction where
  block_number : Nat
  id : String
  nonce : Nat
  result : Bool
  timestamp : String
  account : List Nat
deriving DecidableEq

/-- An HTTP response as delivered by the `pink_extension::http_req!`
transport: status code plus raw body bytes. -/
structure HttpResponse where
  status_code : Nat
  body : List Nat
deriving DecidableEq

/-- Value of one hexadecimal digit (`hex` crate digit set: `0-9a-fA-F`). -/
def hexDigit (c : Char) : Option Nat :=
  if '0' ≤ c ∧ c ≤ '9' then some (c.toNat - '0'.toNat)
  else if 'a' ≤ c ∧ c ≤ 'f' then some (c.toNat - 'a'.toNat + 10)
  else if 'A' ≤ c ∧ c ≤ 'F' then some (c.toNat - 'A'.toNat + 10)
  else none

/-- Implements `hex::decode` on a character list: pairs of hex digits to bytes;
an odd length or a non-hex character fails. -/
def hexDecodeChars : List Char → Option (List Nat)
  | [] => some []
  | [_] => none
  | c1 :: c2 :: rest => do
    let hi ← hexDigit c1
    let lo ← hexDigit c2
    let tail ← hexDecodeChars rest
    some ((hi * 16 + lo) :: tail)

/-- Implements `hex::decode` on a string. -/
def hexDecode (s : String) : Option (List Nat) :=
  hexDecodeChars s.toList

/-- Embeds `send_request` (tx.rs 45-58).  The `http_req!("POST", indexer, query,
headers)` transport call is external I/O; the response it delivers for
this query is taken as the argument.  A non-200 status code is the hard
failure `CallIndexerFailed`; otherwise the body is returned. -/
def send_request (response : HttpResponse) : Res (List Nat) :=
  if response.status_code ≠ 200 then Except.error (Err.msg "CallIndexerFailed")
  else Except.ok response.body

/-- Embeds `get_tx` (tx.rs 60-94).  The HTTP transport and the `pink_json`
deserializer are external capabilities, passed as the oracles `http`
(response delivered for the query keyed by indexer URL, account bytes and
nonce) and `parseBody` (`None` when the body does not parse as
`ResponseData`).  The JSON query string itself is pure formatting of
`account`/`nonce` and is absorbed into the `http` oracle's key.
A parse failure is `InvalidBody`; a transaction count other than one maps
to `Ok(None)`; the single record's account string is stripped of its first
two characters (the Rust byte-slice `&tx.account[2..]` panics when the
string is shorter) and hex-decoded, failing with `InvalidAddress`. -/
def get_tx (indexer : String) (account : List Nat) (nonce : Nat)
    (http : String → List Nat → Nat → HttpResponse)
    (parseBody : List Nat → Option ResponseData) : Res (Option Transaction) := do
  let body ← send_request (http indexer account nonce)
  let response ← okOr (parseBody body) (Err.msg "InvalidBody")
  let transactions := response.data.transactions
  match transactions with
  | [tx] =>
    if tx.account.length < 2 then
      Except.error Err.panicArith
    else do
      let accountBytes ← okOr (hexDecodeChars (tx.account.toList.drop 2))
          (Err.msg "InvalidAddress")
      return some ⟨tx.block_number, tx.id, tx.nonce, tx.result, tx.timestamp,
        accountBytes⟩
  | _ => return none

/-- Embeds `check_tx` (tx.rs 97-109): true iff the indexer returned a record and
its success flag is set; no record maps to `Ok(false)`. -/
def check_tx (indexer : String) (account : List Nat) (nonce : Nat)
    (http : String → List Nat → Nat → HttpResponse)
    (parseBody : List Nat → Option ResponseData) : Res Bool := do
  let tx ← get_tx indexer account nonce http parseBody
  match tx with
  | some tx => return tx.result
  | none => return false

/-! ## SCALE codec primitives (parity-scale-codec, as used by the
`xcm` crate's derived `Encode`/`Decode` implementations) -/

/-- Fixed-width little-endian byte encoding (`u16`/`u32`/`u64` etc.). -/
def toBytesLE : Nat → Nat → List Nat
  | 0, _ => []
  | k + 1, n => n % 256 :: toBytesLE k (n / 256)

/-- Minimal little-endian byte string of a natural number (empty for 0);
the fuel of 17 bytes covers every value below `2 ^ 136`, in particular
every `u128`. -/
def natBytesLEAux : Nat → Nat → List Nat
  | 0, _ => []
  | f + 1, n => if n = 0 then [] else n % 256 :: natBytesLEAux f (n / 256)

/-- Minimal little-endian byte string of a natural number. -/
def natBytesLE (n : Nat) : List Nat := natBytesLEAux 17 n

/-- SCALE compact encoding of an unsigned integer: one byte below `2^6`,
two bytes below `2^14`, four bytes below `2^30`, otherwise a length byte
followed by the minimal little-endian representation. -/
def compactEncode (n : Nat) : List Nat :=
  if n < 2 ^ 6 then [n * 4]
  else if n < 2 ^ 14 then toBytesLE 2 (n * 4 + 1)
  else if n < 2 ^ 30 then toBytesLE 4 (n * 4 + 2)
  else
    let bs := natBytesLE n
    ((bs.length - 4) * 4 + 3) :: bs

/-- SCALE `Option` encoding: `0x00` for `None`, `0x01` then the payload. -/
def encodeOption {α : Type} (f : α → List Nat) : Option α → List Nat
  | none => [0]
  | some a => 1 :: f a

/-- Decode a single byte. -/
def decodeU8 : List Nat → Option (Nat × List Nat)
  | [] => none
  | b :: rest => some (b, rest)

/-- Decode `k` raw bytes (a fixed-size array such as `[u8; 32]`). -/
def decodeBytes (k : Nat) (bs : List Nat) : Option (List Nat × List Nat) :=
  if k ≤ bs.length then some (bs.take k, bs.drop k) else none

/-- Little-endian value of a byte string. -/
def bytesToNatLE : List Nat → Nat
  | [] => 0
  | b :: rest => b + 256 * bytesToNatLE rest

/-- SCALE compact decoding, with parity-scale-codec's canonicity checks
(each mode rejects values small enough for a shorter mode).  Returns the
value and the remaining input. -/
def compactDecode (bs : List Nat) : Option (Nat × List Nat) :=
  match bs with
  | [] => none
  | b :: rest =>
    match b % 4 with
    | 0 => some (b / 4, rest)
    | 1 =>
      match rest with
      | [] => none
      | b2 :: rest2 =>
        let v := (b + 256 * b2) / 4
        if 2 ^ 6 ≤ v then some (v, rest2) else none
    | 2 =>
      match rest with
      | b2 :: b3 :: b4 :: rest4 =>
        let v := (b + 256 * (b2 + 256 * (b3 + 256 * b4))) / 4
        if 2 ^ 14 ≤ v then some (v, rest4) else none
      | _ => none
    | _ =>
      let len := b / 4 + 4
      match decodeBytes len rest with
      | none => none
      | some (payload, rest2) =>
        let v := bytesToNatLE payload
        if 2 ^ 30 ≤ v ∧ 256 ^ (len - 1) ≤ v then some (v, rest2) else none

/-- SCALE compact decoding bounded by a width (`Compact<u32>` rejects
values of 2^32 or more, etc.). -/
def compactDecodeBounded (bound : Nat) (bs : List Nat) : Option (Nat × List Nat) :=
  match compactDecode bs with
  | some (v, rest) => if v < bound then some (v, rest) else none
  | none => none

/-! ## XCM v3 types (`xcm::v3`, used by phala/xtransfer.rs) with their
SCALE encodings, restricted to the constructors this codebase can decode
or construct; the `Plurality` junction (codec index 8) carries `BodyId`
and `BodyPart` payloads that nothing here produces, and its decoding is
left unsupported. -/

namespace XcmV3

/-- Mirrors `xcm::v3::NetworkId`. -/
inductive NetworkId where
  | ByGenesis (genesis : List Nat)
  | ByFork (block_number : Nat) (block_hash : List Nat)
  | Polkadot
  | Kusama
  | Westend
  | Rococo
  | Wococo
  | Ethereum (chain_id : Nat)
  | BitcoinCore
  | BitcoinCash
deriving DecidableEq

/-- Mirrors `xcm::v3::Junction` (without `Plurality`). -/
inductive Junction where
  | Parachain (id : Nat)
  | AccountId32 (network : Option NetworkId) (id : List Nat)
  | AccountIndex64 (network : Option NetworkId) (index : Nat)
  | AccountKey20 (network : Option NetworkId) (key : List Nat)
  | PalletInstance (index : Nat)
  | GeneralIndex (index : Nat)
  | GeneralKey (length : Nat) (data : List Nat)
  | OnlyChild
  | GlobalConsensus (network : NetworkId)
deriving DecidableEq

/-- Mirrors `xcm::v3::Junctions`. -/
inductive Junctions where
  | Here
  | X1 (a : Junction)
  | X2 (a b : Junction)
  | X3 (a b c : Junction)
  | X4 (a b c d : Junction)
  | X5 (a b c d e : Junction)
  | X6 (a b c d e f : Junction)
  | X7 (a b c d e f g : Junction)
  | X8 (a b c d e f g h : Junction)
deriving DecidableEq

/-- Mirrors `xcm::v3::MultiLocation`. -/
structure MultiLocation where
  parents : Nat
  interior : Junctions
deriving DecidableEq

/-- Mirrors `xcm::v3::AssetId`. -/
inductive AssetId where
  | Concrete (location : MultiLocation)
  | Abstract (bytes : List Nat)
deriving DecidableEq

/-- Mirrors `xcm::v3::Fungibility`; the `NonFungible` payload (`AssetInstance`) is
never constructed by the embedded code and is kept as its SCALE bytes. -/
inductive Fungibility where
  | Fungible (amount : Nat)
  | NonFungible (instanceBytes : List Nat)
deriving DecidableEq

/-- Mirrors `xcm::v3::MultiAsset`. -/
structure MultiAsset where
  id : AssetId
  «fun» : Fungibility
deriving DecidableEq

/-- Mirrors `sp_weights::Weight` (both fields compact-encoded). -/
structure Weight where
  ref_time : Nat
  proof_size : Nat
deriving DecidableEq

/-- Mirrors `Weight::from_parts`. -/
def Weight.from_parts (ref_time proof_size : Nat) : Weight :=
  ⟨ref_time, proof_size⟩

/-- SCALE encoding of `xcm::v3::NetworkId`. -/
def encodeNetworkId : NetworkId → List Nat
  | NetworkId.ByGenesis g => 0 :: g
  | NetworkId.ByFork bn bh => 1 :: (toBytesLE 8 bn ++ bh)
  | NetworkId.Polkadot => [2]
  | NetworkId.Kusama => [3]
  | NetworkId.Westend => [4]
  | NetworkId.Rococo => [5]
  | NetworkId.Wococo => [6]
  | NetworkId.Ethereum cid => 7 :: compactEncode cid
  | NetworkId.BitcoinCore => [8]
  | NetworkId.BitcoinCash => [9]

/-- SCALE encoding of `xcm::v3::Junction` (codec indices 0-9, with 8 =
`Plurality` unused). -/
def encodeJunction : Junction → List Nat
  | Junction.Parachain id => 0 :: compactEncode id
  | Junction.AccountId32 network id =>
      1 :: (encodeOption encodeNetworkId network ++ id)
  | Junction.AccountIndex64 network index =>
      2 :: (encodeOption encodeNetworkId network ++ compactEncode index)
  | Junction.AccountKey20 network key =>
      3 :: (encodeOption encodeNetworkId network ++ key)
  | Junction.PalletInstance index => 4 :: [index % 256]
  | Junction.GeneralIndex index => 5 :: compactEncode index
  | Junction.GeneralKey length data => 6 :: (length % 256 :: data)
  | Junction.OnlyChild => [7]
  | Junction.GlobalConsensus network => 9 :: encodeNetworkId network

/-- SCALE encoding of `xcm::v3::Junctions`. -/
def encodeJunctions : Junctions → List Nat
  | Junctions.Here => [0]
  | Junctions.X1 a => 1 :: encodeJunction a
  | Junctions.X2 a b => 2 :: (encodeJunction a ++ encodeJunction b)
  | Junctions.X3 a b c =>
      3 :: (encodeJunction a ++ encodeJunction b ++ encodeJunction c)
  | Junctions.X4 a b c d =>
      4 :: (encodeJunction a ++ encodeJunction b ++ encodeJunction c ++
        encodeJunction d)
  | Junctions.X5 a b c d e =>
      5 :: (encodeJunction a ++ encodeJunction b ++ encodeJunction c ++
        encodeJunction d ++ encodeJunction e)
  | Junctions.X6 a b c d e f =>
      6 :: (encodeJunction a ++ encodeJunction b ++ encodeJunction c ++
        encodeJunction d ++ encodeJunction e ++ encodeJunction f)
  | Junctions.X7 a b c d e f g =>
      7 :: (encodeJunction a ++ encodeJunction b ++ encodeJunction c ++
        encodeJunction d ++ encodeJunction e ++ encodeJunction f ++
        encodeJunction g)
  | Junctions.X8 a b c d e f g h =>
      8 :: (encodeJunction a ++ encodeJunction b ++ encodeJunction c ++
        encodeJunction d ++ encodeJunction e ++ encodeJunction f ++
        encodeJunction g ++ encodeJunction h)

/-- SCALE encoding of `xcm::v3::MultiLocation`. -/
def encodeMultiLocation (m : MultiLocation) : List Nat :=
  m.parents % 256 :: encodeJunctions m.interior

/-- SCALE encoding of `xcm::v3::AssetId`. -/
def encodeAssetId : AssetId → List Nat
  | AssetId.Concrete location => 0 :: encodeMultiLocation location
  | AssetId.Abstract bytes => 1 :: bytes

/-- SCALE encoding of `xcm::v3::Fungibility` (the fungible amount is
compact-encoded). -/
def encodeFungibility : Fungibility → List Nat
  | Fungibility.Fungible amount => 0 :: compactEncode amount
  | Fungibility.NonFungible instanceBytes => 1 :: instanceBytes

/-- SCALE encoding of `xcm::v3::MultiAsset`. -/
def encodeMultiAsset (a : MultiAsset) : List Nat :=
  encodeAssetId a.id ++ encodeFungibility a.«fun»

/-- SCALE encoding of `sp_weights::Weight` (two compact fields). -/
def encodeWeight (w : Weight) : List Nat :=
  compactEncode w.ref_time ++ compactEncode w.proof_size

/-- SCALE decoding of `xcm::v3::NetworkId`. -/
def decodeNetworkId (bs : List Nat) : Option (NetworkId × List Nat) := do
  let (tag, rest) ← decodeU8 bs
  match tag with
  | 0 => do
    let (g, rest2) ← decodeBytes 32 rest
    some (NetworkId.ByGenesis g, rest2)
  | 1 => do
    let (bn, rest2) ← decodeBytes 8 rest
    let (bh, rest3) ← decodeBytes 32 rest2
    some (NetworkId.ByFork (bytesToNatLE bn) bh, rest3)
  | 2 => some (NetworkId.Polkadot, rest)
  | 3 => some (NetworkId.Kusama, rest)
  | 4 => some (NetworkId.Westend, rest)
  | 5 => some (NetworkId.Rococo, rest)
  | 6 => some (NetworkId.Wococo, rest)
  | 7 => do
    let (cid, rest2) ← compactDecodeBounded (2 ^ 64) rest
    some (NetworkId.Ethereum cid, rest2)
  | 8 => some (NetworkId.BitcoinCore, rest)
  | 9 => some (NetworkId.BitcoinCash, rest)
  | _ => none

/-- SCALE decoding of `Option<NetworkId>`. -/
def decodeOptionNetworkId (bs : List Nat) :
    Option (Option NetworkId × List Nat) := do
  let (tag, rest) ← decodeU8 bs
  match tag with
  | 0 => some (none, rest)
  | 1 => do
    let (n, rest2) ← decodeNetworkId rest
    some (some n, rest2)
  | _ => none

/-- SCALE decoding of `xcm::v3::Junction`; codec index 8 (`Plurality`) is
not supported by this embedding and fails. -/
def decodeJunction (bs : List Nat) : Option (Junction × List Nat) := do
  let (tag, rest) ← decodeU8 bs
  match tag with
  | 0 => do
    let (id, rest2) ← compactDecodeBounded (2 ^ 32) rest
    some (Junction.Parachain id, rest2)
  | 1 => do
    let (network, rest2) ← decodeOptionNetworkId rest
    let (id, rest3) ← decodeBytes 32 rest2
    some (Junction.AccountId32 network id, rest3)
  | 2 => do
    let (network, rest2) ← decodeOptionNetworkId rest
    let (index, rest3) ← compactDecodeBounded (2 ^ 64) rest2
    some (Junction.AccountIndex64 network index, rest3)
  | 3 => do
    let (network, rest2) ← decodeOptionNetworkId rest
    let (key, rest3) ← decodeBytes 20 rest2
    some (Junction.AccountKey20 network key, rest3)
  | 4 => do
    let (index, rest2) ← decodeU8 rest
    some (Junction.PalletInstance index, rest2)
  | 5 => do
    let (index, rest2) ← compactDecodeBounded (2 ^ 128) rest
    some (Junction.GeneralIndex index, rest2)
  | 6 => do
    let (length, rest2) ← decodeU8 rest
    let (data, rest3) ← decodeBytes 32 rest2
    some (Junction.GeneralKey length data, rest3)
  | 7 => some (Junction.OnlyChild, rest)
  | 9 => do
    let (network, rest2) ← decodeNetworkId rest
    some (Junction.GlobalConsensus network, rest2)
  | _ => none

/-- SCALE decoding of `xcm::v3::Junctions`. -/
def decodeJunctions (bs : List Nat) : Option (Junctions × List Nat) := do
  let (tag, rest) ← decodeU8 bs
  match tag with
  | 0 => some (Junctions.Here, rest)
  | 1 => do
    let (a, r1) ← decodeJunction rest
    some (Junctions.X1 a, r1)
  | 2 => do
    let (a, r1) ← decodeJunction rest
    let (b, r2) ← decodeJunction r1
    some (Junctions.X2 a b, r2)
  | 3 => do
    let (a, r1) ← decodeJunction rest
    let (b, r2) ← decodeJunction r1
    let (c, r3) ← decodeJunction r2
    some (Junctions.X3 a b c, r3)
  | 4 => do
    let (a, r1) ← decodeJunction rest
    let (b, r2) ← decodeJunction r1
    let (c, r3) ← decodeJunction r2
    let (d, r4) ← decodeJunction r3
    some (Junctions.X4 a b c d, r4)
  | 5 => do
    let (a, r1) ← decodeJunction rest
    let (b, r2) ← decodeJunction r1
    let (c, r3) ← decodeJunction r2
    let (d, r4) ← decodeJunction r3
    let (e, r5) ← decodeJunction r4
    some (Junctions.X5 a b c d e, r5)
  | 6 => do
    let (a, r1) ← decodeJunction rest
    let (b, r2) ← decodeJunction r1
    let (c, r3) ← decodeJunction r2
    let (d, r4) ← decodeJunction r3
    let (e, r5) ← decodeJunction r4
    let (f, r6) ← decodeJunction r5
    some (Junctions.X6 a b c d e f, r6)
  | 7 => do
    let (a, r1) ← decodeJunction rest
    let (b, r2) ← decodeJunction r1
    let (c, r3) ← decodeJunction r2
    let (d, r4) ← decodeJunction r3
    let (e, r5) ← decodeJunction r4
    let (f, r6) ← decodeJunction r5
    let (g, r7) ← decodeJunction r6
    some (Junctions.X7 a b c d e f g, r7)
  | 8 => do
    let (a, r1) ← decodeJunction rest
    let (b, r2) ← decodeJunction r1
    let (c, r3) ← decodeJunction r2
    let (d, r4) ← decodeJunction r3
    let (e, r5) ← decodeJunction r4
    let (f, r6) ← decodeJunction r5
    let (g, r7) ← decodeJunction r6
    let (h, r8) ← decodeJunction r7
    some (Junctions.X8 a b c d e f g h, r8)
  | _ => none

/-- SCALE decoding of `xcm::v3::MultiLocation` (`Decode::decode` on a
byte slice: trailing bytes are permitted and returned). -/
def decodeMultiLocation (bs : List Nat) : Option (MultiLocation × List Nat) := do
  let (parents, rest) ← decodeU8 bs
  let (interior, rest2) ← decodeJunctions rest
  some (⟨parents, interior⟩, rest2)

end XcmV3

/-! ## Call model and encoder inputs -/

/-- Mirrors `crate::account::AccountType` (declared in `src/index/src/lib.rs` and
mirrored in the executor crate): the destination chain's account form. -/
inductive AccountType where
  | Account20
  | Account32
deriving DecidableEq

/-- Modelled from the spec: `crate::call::SubCall` is not under src/.
Spec §3: each `Call` variant carries opaque encoded bytes. -/
structure SubCall where
  calldata : List Nat
deriving DecidableEq

/-- Modelled from the spec: `crate::call::CallParams` is not under src/.
Spec §3: a `Call` is "a tagged union of {native contract call, sub-chain
extrinsic, cross-consensus message}, each carrying opaque encoded bytes";
only the `Sub` variant is constructed by the embedded encoders. -/
inductive CallParams where
  | Evm (calldata : List Nat)
  | Sub (sub : SubCall)
  | Xcm (calldata : List Nat)
deriving DecidableEq

/-- Modelled from the spec: `crate::call::Call` is not under src/.  The
encoder output record, as populated at xtransfer.rs 64-75 and
xcm.rs 64-75 (`input_call` and `call_index` set to `None`). -/
structure Call where
  params : CallParams
  input_call : Option Nat
  call_index : Option Nat
deriving DecidableEq

/-- Modelled from the spec: `crate::call::SubExtrinsic` is not under src/.
Spec §6: "a Substrate-style extrinsic payload = 1-byte pallet index +
1-byte call index + SCALE-encoded tuple of typed call arguments"; the
typed tuple is represented by its SCALE bytes (a SCALE tuple encoding is
the concatenation of the encodings of its components). -/
structure SubExtrinsic where
  pallet_id : Nat
  call_id : Nat
  callBytes : List Nat
deriving DecidableEq

/-- Modelled from the spec: SCALE encoding of `SubExtrinsic` — the pallet
index byte, the call index byte, then the encoded call arguments. -/
def SubExtrinsic.encode (e : SubExtrinsic) : List Nat :=
  e.pallet_id % 256 :: e.call_id % 256 :: e.callBytes

/-- Modelled from the spec: `crate::utils::ToArray` is not under src/.
Spec §4.1: "If the destination is addressed by a 32-byte account, the
recipient bytes must decode to exactly 32 bytes; if 20-byte, exactly 20
bytes. Mismatched length is a fatal `InvalidRecipient` condition — never
silently truncated or padded."  The conversion of a byte vector to an
`N`-byte array therefore succeeds exactly on input of length `N` and
otherwise raises the fatal `InvalidRecipient` condition. -/
def to_array (n : Nat) (bytes : List Nat) : Res (List Nat) :=
  if bytes.length = n then Except.ok bytes
  else Except.error (Err.msg "InvalidRecipient")

/-- Modelled from the spec: `crate::step::Step` is not under src/.  Field
set reconstructed from the phala/xtransfer.rs call site and test
(xtransfer.rs 91-106): execution id, chain names, asset ids, optional
sender/recipient, optional spend amount, origin balance and nonce. -/
structure Step where
  exe : String
  source_chain : String
  dest_chain : String
  spend_asset : List Nat
  receive_asset : List Nat
  sender : Option (List Nat)
  recipient : Option (List Nat)
  spend_amount : Option Nat
  origin_balance : Option Nat
  nonce : Option Nat
deriving DecidableEq

/-! ## `XTransferXcm` encoder
(`src/contracts/index_executor/src/actions/phala/xtransfer.rs`) -/

/-- Structure `XTransferXcm` (xtransfer.rs 13-17): destination parachain id and the
destination chain's account type. -/
structure XTransferXcm where
  dest_chain_id : Nat
  account_type : AccountType
deriving DecidableEq

/-- Embeds `XTransferXcm::build_call` (xtransfer.rs 32-76): require the recipient
(`MissingRecipient`); SCALE-decode the spend asset into an XCM v3
`MultiLocation` (`InvalidMultilocation`); build the fungible multi-asset
from the spend amount (`MissingSpendAmount`); build the destination
location `X2(Parachain(dest_chain_id), account junction)` under one
parent, converting the recipient to the exact array size dictated by the
account type; attach the fixed `Weight::from_parts(6000000000, 1000000)`;
and emit a single Substrate extrinsic call with pallet id `0x52` and call
id `0x0` whose arguments are the tuple
`(multi_asset, dest, Some(dest_weight))`. -/
def XTransferXcm.build_call (self : XTransferXcm) (step : Step) :
    Res (List Call) := do
  let recipient ← okOr step.recipient (Err.msg "MissingRecipient")
  let asset_location ← match XcmV3.decodeMultiLocation step.spend_asset with
    | some (loc, _) => Except.ok loc
    | none => Except.error (Err.msg "InvalidMultilocation")
  let spend_amount ← okOr step.spend_amount (Err.msg "MissingSpendAmount")
  let multi_asset : XcmV3.MultiAsset :=
    ⟨XcmV3.AssetId.Concrete asset_location, XcmV3.Fungibility.Fungible spend_amount⟩
  let accountJunction ← match self.account_type with
    | AccountType.Account20 => do
      let r ← to_array 20 recipient
      pure (XcmV3.Junction.AccountKey20 none r)
    | AccountType.Account32 => do
      let r ← to_array 32 recipient
      pure (XcmV3.Junction.AccountId32 none r)
  let dest : XcmV3.MultiLocation :=
    ⟨1, XcmV3.Junctions.X2 (XcmV3.Junction.Parachain self.dest_chain_id)
      accountJunction⟩
  let dest_weight : XcmV3.Weight := XcmV3.Weight.from_parts 6000000000 1000000
  let calldata : SubExtrinsic :=
    ⟨0x52, 0x0,
      XcmV3.encodeMultiAsset multi_asset ++
      XcmV3.encodeMultiLocation dest ++
      encodeOption XcmV3.encodeWeight (some dest_weight)⟩
  return [Call.mk (CallParams.Sub (SubCall.mk calldata.encode)) none none]

/-! ## XCM v2 types (`xcm::v2`, used by polkadot/xcm.rs) with their SCALE
encodings; as in v3, the `Plurality` junction (codec index 8) is never
produced here and its decoding is left unsupported. -/

namespace XcmV2

/-- Mirrors `xcm::v2::NetworkId`. -/
inductive NetworkId where
  | Any
  | Named (name : List Nat)
  | Polkadot
  | Kusama
deriving DecidableEq

/-- Mirrors `xcm::v2::Junction` (without `Plurality`). -/
inductive Junction where
  | Parachain (id : Nat)
  | AccountId32 (network : NetworkId) (id : List Nat)
  | AccountIndex64 (network : NetworkId) (index : Nat)
  | AccountKey20 (network : NetworkId) (key : List Nat)
  | PalletInstance (index : Nat)
  | GeneralIndex (index : Nat)
  | GeneralKey (data : List Nat)
  | OnlyChild
deriving DecidableEq

/-- Mirrors `xcm::v2::Junctions`. -/
inductive Junctions where
  | Here
  | X1 (a : Junction)
  | X2 (a b : Junction)
  | X3 (a b c : Junction)
  | X4 (a b c d : Junction)
  | X5 (a b c d e : Junction)
  | X6 (a b c d e f : Junction)
  | X7 (a b c d e f g : Junction)
  | X8 (a b c d e f g h : Junction)
deriving DecidableEq

/-- Mirrors `xcm::v2::MultiLocation`. -/
structure MultiLocation where
  parents : Nat
  interior : Junctions
deriving DecidableEq

/-- Mirrors `xcm::v2::AssetId`. -/
inductive AssetId where
  | Concrete (location : MultiLocation)
  | Abstract (bytes : List Nat)
deriving DecidableEq

/-- Mirrors `xcm::v2::Fungibility`; as in v3 the `NonFungible` payload is kept as
its SCALE bytes. -/
inductive Fungibility where
  | Fungible (amount : Nat)
  | NonFungible (instanceBytes : List Nat)
deriving DecidableEq

/-- Mirrors `xcm::v2::MultiAsset`. -/
structure MultiAsset where
  id : AssetId
  «fun» : Fungibility
deriving DecidableEq

/-- SCALE encoding of `Vec<u8>`: compact length then the bytes. -/
def encodeVecU8 (bs : List Nat) : List Nat :=
  compactEncode bs.length ++ bs

/-- SCALE encoding of `xcm::v2::NetworkId`. -/
def encodeNetworkId : NetworkId → List Nat
  | NetworkId.Any => [0]
  | NetworkId.Named name => 1 :: encodeVecU8 name
  | NetworkId.Polkadot => [2]
  | NetworkId.Kusama => [3]

/-- SCALE encoding of `xcm::v2::Junction` (codec indices 0-8, with 8 =
`Plurality` unused; v2 `GeneralKey` is a bounded byte vector). -/
def encodeJunction : Junction → List Nat
  | Junction.Parachain id => 0 :: compactEncode id
  | Junction.AccountId32 network id => 1 :: (encodeNetworkId network ++ id)
  | Junction.AccountIndex64 network index =>
      2 :: (encodeNetworkId network ++ compactEncode index)
  | Junction.AccountKey20 network key => 3 :: (encodeNetworkId network ++ key)
  | Junction.PalletInstance index => 4 :: [index % 256]
  | Junction.GeneralIndex index => 5 :: compactEncode index
  | Junction.GeneralKey data => 6 :: encodeVecU8 data
  | Junction.OnlyChild => [7]

/-- SCALE encoding of `xcm::v2::Junctions`. -/
def encodeJunctions : Junctions → List Nat
  | Junctions.Here => [0]
  | Junctions.X1 a => 1 :: encodeJunction a
  | Junctions.X2 a b => 2 :: (encodeJunction a ++ encodeJunction b)
  | Junctions.X3 a b c =>
      3 :: (encodeJunction a ++ encodeJunction b ++ encodeJunction c)
  | Junctions.X4 a b c d =>
      4 :: (encodeJunction a ++ encodeJunction b ++ encodeJunction c ++
        encodeJunction d)
  | Junctions.X5 a b c d e =>
      5 :: (encodeJunction a ++ encodeJunction b ++ encodeJunction c ++
        encodeJunction d ++ encodeJunction e)
  | Junctions.X6 a b c d e f =>
      6 :: (encodeJunction a ++ encodeJunction b ++ encodeJunction c ++
        encodeJunction d ++ encodeJunction e ++ encodeJunction f)
  | Junctions.X7 a b c d e f g =>
      7 :: (encodeJunction a ++ encodeJunction b ++ encodeJunction c ++
        encodeJunction d ++ encodeJunction e ++ encodeJunction f ++
        encodeJunction g)
  | Junctions.X8 a b c d e f g h =>
      8 :: (encodeJunction a ++ encodeJunction b ++ encodeJunction c ++
        encodeJunction d ++ encodeJunction e ++ encodeJunction f ++
        encodeJunction g ++ encodeJunction h)

/-- SCALE encoding of `xcm::v2::MultiLocation`. -/
def encodeMultiLocation (m : MultiLocation) : List Nat :=
  m.parents % 256 :: encodeJunctions m.interior

/-- SCALE encoding of `xcm::v2::AssetId` (v2 `Abstract` carries a
length-prefixed vector). -/
def encodeAssetId : AssetId → List Nat
  | AssetId.Concrete location => 0 :: encodeMultiLocation location
  | AssetId.Abstract bytes => 1 :: encodeVecU8 bytes

/-- SCALE encoding of `xcm::v2::Fungibility`. -/
def encodeFungibility : Fungibility → List Nat
  | Fungibility.Fungible amount => 0 :: compactEncode amount
  | Fungibility.NonFungible instanceBytes => 1 :: instanceBytes

/-- SCALE encoding of `xcm::v2::MultiAsset`. -/
def encodeMultiAsset (a : MultiAsset) : List Nat :=
  encodeAssetId a.id ++ encodeFungibility a.«fun»

/-- SCALE encoding of `xcm::v2::MultiAssets` (a vector of assets: compact
count then each asset). -/
def encodeMultiAssets (assets : List MultiAsset) : List Nat :=
  compactEncode assets.length ++ assets.flatMap encodeMultiAsset

/-- SCALE decoding of `Vec<u8>`. -/
def decodeVecU8 (bs : List Nat) : Option (List Nat × List Nat) := do
  let (len, rest) ← compactDecodeBounded (2 ^ 32) bs
  decodeBytes len rest

/-- SCALE decoding of `xcm::v2::NetworkId`. -/
def decodeNetworkId (bs : List Nat) : Option (NetworkId × List Nat) := do
  let (tag, rest) ← decodeU8 bs
  match tag with
  | 0 => some (NetworkId.Any, rest)
  | 1 => do
    let (name, rest2) ← decodeVecU8 rest
    some (NetworkId.Named name, rest2)
  | 2 => some (NetworkId.Polkadot, rest)
  | 3 => some (NetworkId.Kusama, rest)
  | _ => none

/-- SCALE decoding of `xcm::v2::Junction`; codec index 8 (`Plurality`) is
not supported by this embedding and fails.  The v2 `GeneralKey` payload is
a vector bounded by 32 bytes. -/
def decodeJunction (bs : List Nat) : Option (Junction × List Nat) := do
  let (tag, rest) ← decodeU8 bs
  match tag with
  | 0 => do
    let (id, rest2) ← compactDecodeBounded (2 ^ 32) rest
    some (Junction.Parachain id, rest2)
  | 1 => do
    let (network, rest2) ← decodeNetworkId rest
    let (id, rest3) ← decodeBytes 32 rest2
    some (Junction.AccountId32 network id, rest3)
  | 2 => do
    let (network, rest2) ← decodeNetworkId rest
    let (index, rest3) ← compactDecodeBounded (2 ^ 64) rest2
    some (Junction.AccountIndex64 network index, rest3)
  | 3 => do
    let (network, rest2) ← decodeNetworkId rest
    let (key, rest3) ← decodeBytes 20 rest2
    some (Junction.AccountKey20 network key, rest3)
  | 4 => do
    let (index, rest2) ← decodeU8 rest
    some (Junction.PalletInstance index, rest2)
  | 5 => do
    let (index, rest2) ← compactDecodeBounded (2 ^ 128) rest
    some (Junction.GeneralIndex index, rest2)
  | 6 => do
    let (data, rest2) ← decodeVecU8 rest
    if data.length ≤ 32 then some (Junction.GeneralKey data, rest2) else none
  | 7 => some (Junction.OnlyChild, rest)
  | _ => none

/-- SCALE decoding of `xcm::v2::Junctions`. -/
def decodeJunctions (bs : List Nat) : Option (Junctions × List Nat) := do
  let (tag, rest) ← decodeU8 bs
  match tag with
  | 0 => some (Junctions.Here, rest)
  | 1 => do
    let (a, r1) ← decodeJunction rest
    some (Junctions.X1 a, r1)
  | 2 => do
    let (a, r1) ← decodeJunction rest
    let (b, r2) ← decodeJunction r1
    some (Junctions.X2 a b, r2)
  | 3 => do
    let (a, r1) ← decodeJunction rest
    let (b, r2) ← decodeJunction r1
    let (c, r3) ← decodeJunction r2
    some (Junctions.X3 a b c, r3)
  | 4 => do
    let (a, r1) ← decodeJunction rest
    let (b, r2) ← decodeJunction r1
    let (c, r3) ← decodeJunction r2
    let (d, r4) ← decodeJunction r3
    some (Junctions.X4 a b c d, r4)
  | 5 => do
    let (a, r1) ← decodeJunction rest
    let (b, r2) ← decodeJunction r1
    let (c, r3) ← decodeJunction r2
    let (d, r4) ← decodeJunction r3
    let (e, r5) ← decodeJunction r4
    some (Junctions.X5 a b c d e, r5)
  | 6 => do
    let (a, r1) ← decodeJunction rest
    let (b, r2) ← decodeJunction r1
    let (c, r3) ← decodeJunction r2
    let (d, r4) ← decodeJunction r3
    let (e, r5) ← decodeJunction r4
    let (f, r6) ← decodeJunction r5
    some (Junctions.X6 a b c d e f, r6)
  | 7 => do
    let (a, r1) ← decodeJunction rest
    let (b, r2) ← decodeJunction r1
    let (c, r3) ← decodeJunction r2
    let (d, r4) ← decodeJunction r3
    let (e, r5) ← decodeJunction r4
    let (f, r6) ← decodeJunction r5
    let (g, r7) ← decodeJunction r6
    some (Junctions.X7 a b c d e f g, r7)
  | 8 => do
    let (a, r1) ← decodeJunction rest
    let (b, r2) ← decodeJunction r1
    let (c, r3) ← decodeJunction r2
    let (d, r4) ← decodeJunction r3
    let (e, r5) ← decodeJunction r4
    let (f, r6) ← decodeJunction r5
    let (g, r7) ← decodeJunction r6
    let (h, r8) ← decodeJunction r7
    some (Junctions.X8 a b c d e f g h, r8)
  | _ => none

/-- SCALE decoding of `xcm::v2::MultiLocation` (trailing bytes
permitted and returned). -/
def decodeMultiLocation (bs : List Nat) : Option (MultiLocation × List Nat) := do
  let (parents, rest) ← decodeU8 bs
  let (interior, rest2) ← decodeJunctions rest
  some (⟨parents, interior⟩, rest2)

end XcmV2

/-- Mirrors `xcm::VersionedMultiLocation` restricted to the variants present in
the crate (codec index 1 = `V2`, codec index 3 = `V3`); only `V2` is
constructed here, so `V3` carries its SCALE bytes opaquely. -/
inductive VersionedMultiLocation where
  | V2 (location : XcmV2.MultiLocation)
  | V3 (bytes : List Nat)
deriving DecidableEq

/-- SCALE encoding of `xcm::VersionedMultiLocation` (`V2` keeps the
historical codec index 1, `V3` uses 3). -/
def encodeVersionedMultiLocation : VersionedMultiLocation → List Nat
  | VersionedMultiLocation.V2 location => 1 :: XcmV2.encodeMultiLocation location
  | VersionedMultiLocation.V3 bytes => 3 :: bytes

/-- Mirrors `xcm::VersionedMultiAssets` restricted likewise. -/
inductive VersionedMultiAssets where
  | V2 (assets : List XcmV2.MultiAsset)
  | V3 (bytes : List Nat)
deriving DecidableEq

/-- SCALE encoding of `xcm::VersionedMultiAssets` (`V2` = codec index 1,
`V3` = 3). -/
def encodeVersionedMultiAssets : VersionedMultiAssets → List Nat
  | VersionedMultiAssets.V2 assets => 1 :: XcmV2.encodeMultiAssets assets
  | VersionedMultiAssets.V3 bytes => 3 :: bytes

/-! ## `PolkadotXcm` encoder
(`src/contracts/index_executor/src/actions/polkadot/xcm.rs`) -/

namespace Polkadot

/-- Modelled from the spec: `crate::step::Step` is not under src/; at the
polkadot/xcm.rs call site and test (xcm.rs 91-106) the recipient field is
a plain byte vector rather than an option. -/
structure Step where
  exe : String
  source_chain : String
  dest_chain : String
  spend_asset : List Nat
  receive_asset : List Nat
  sender : Option (List Nat)
  recipient : List Nat
  spend_amount : Option Nat
  origin_balance : Option Nat
  nonce : Option Nat
deriving DecidableEq

end Polkadot

/-- Structure `PolkadotXcm` (xcm.rs 12-15): destination parachain id and the
destination chain's account type. -/
structure PolkadotXcm where
  dest_chain_id : Nat
  account_type : AccountType
deriving DecidableEq

/-- Embeds `PolkadotXcm::build_call` (xcm.rs 30-76): SCALE-decode the spend asset
into an XCM v2 `MultiLocation` (`InvalidMultilocation`); the destination
is `X1(Parachain(dest_chain_id))` with no parent, versioned as `V2`; the
beneficiary converts the recipient to the exact array size dictated by
the account type (network `Any`); the assets are the single fungible
multi-asset from the spend amount (`MissingSpendAmount`) with fee asset
item `0`; emit one Substrate extrinsic call with pallet id `0x63` and
call id `0x02` whose arguments are the tuple
`(dest, beneficiary, assets, fee_asset_item)`. -/
def PolkadotXcm.build_call (self : PolkadotXcm) (step : Polkadot.Step) :
    Res Call := do
  let recipient := step.recipient
  let asset_location ← match XcmV2.decodeMultiLocation step.spend_asset with
    | some (loc, _) => Except.ok loc
    | none => Except.error (Err.msg "InvalidMultilocation")
  let dest : VersionedMultiLocation :=
    VersionedMultiLocation.V2
      ⟨0, XcmV2.Junctions.X1 (XcmV2.Junction.Parachain self.dest_chain_id)⟩
  let beneficiaryJunction ← match self.account_type with
    | AccountType.Account20 => do
      let r ← to_array 20 recipient
      pure (XcmV2.Junction.AccountKey20 XcmV2.NetworkId.Any r)
    | AccountType.Account32 => do
      let r ← to_array 32 recipient
      pure (XcmV2.Junction.AccountId32 XcmV2.NetworkId.Any r)
  let beneficiary : VersionedMultiLocation :=
    VersionedMultiLocation.V2 ⟨0, XcmV2.Junctions.X1 beneficiaryJunction⟩
  let spend_amount ← okOr step.spend_amount (Err.msg "MissingSpendAmount")
  let assets : VersionedMultiAssets :=
    VersionedMultiAssets.V2
      [⟨XcmV2.AssetId.Concrete asset_location, XcmV2.Fungibility.Fungible spend_amount⟩]
  let fee_asset_item : Nat := 0
  let calldata : SubExtrinsic :=
    ⟨0x63, 0x02,
      encodeVersionedMultiLocation dest ++
      encodeVersionedMultiLocation beneficiary ++
      encodeVersionedMultiAssets assets ++
      toBytesLE 4 fee_asset_item⟩
  return Call.mk (CallParams.Sub (SubCall.mk calldata.encode)) none none

/-! ## Concrete fixtures -/

/-- Length of the raw account representation demanded by an account type:
exactly 20 bytes for `Account20`, exactly 32 bytes for `Account32`. -/
def requiredLen : AccountType → Nat
  | AccountType.Account20 => 20
  | AccountType.Account32 => 32

/-- A Substrate-type chain entry with an indexer URL. -/
def chainSub : Chain := ⟨ChainType.Sub, "https://indexer.example"⟩

/-- Context in which the indexer reports settled-with-success and the
live source-chain ("Phala") balance is 6 while the destination balance
is 1. -/
def ctxSettledGain : Context :=
  { signer := 7,
    account20 := List.replicate 20 10,
    account32 := List.replicate 32 11,
    get_nonce := fun _ => Except.ok 0,
    get_balance := fun chainName _ =>
      if chainName = "Phala" then Except.ok 6 else Except.ok 1,
    get_chain := fun _ => some chainSub,
    check_tx := fun _ _ _ => Except.ok true,
    get_bridge_executor := fun _ _ => none }

/-- Like `ctxSettledGain` but with live source-chain balance 4 (a drop of
exactly 1 below the baseline 5). -/
def ctxSettledDrop : Context :=
  { ctxSettledGain with
    get_balance := fun chainName _ =>
      if chainName = "Phala" then Except.ok 4 else Except.ok 1 }

/-- Like `ctxSettledGain` but the indexer reports not settled. -/
def ctxNotSettled : Context :=
  { ctxSettledGain with check_tx := fun _ _ _ => Except.ok false }

/-- Bridge step with baselines `b0 = 5`, `b1 = 0` and amount 1. -/
def stepUnderflow : BridgeStep :=
  ⟨[0], "Phala", [1], "Astar", 0, 0, 0, some 5, some 0, 1,
    some (List.replicate 32 3)⟩

/-- Bridge step with both baselines absent. -/
def stepNoB0 : BridgeStep :=
  ⟨[0], "Phala", [1], "Astar", 0, 0, 0, none, none, 1, none⟩

/-- Bridge step with `b0` present and `b1` absent. -/
def stepNoB1 : BridgeStep :=
  ⟨[0], "Phala", [1], "Astar", 0, 0, 0, some 5, none, 1, none⟩

/-- Bridge step with amount 5 (for the runnable boundary checks). -/
def stepAmount5 : BridgeStep :=
  ⟨[2], "Phala", [3], "Astar", 0, 0, 0, none, none, 5, none⟩

/-- Minimal context whose nonce query answers `n` and whose balance query
answers `b`. -/
def ctxNB (n b : Nat) : Context :=
  ⟨0, [], [], fun _ => Except.ok n, fun _ _ => Except.ok b, fun _ => none,
    fun _ _ _ => Except.ok false, fun _ _ => none⟩

/-- Executor whose transfer echoes its arguments back as the tx id
(signer, pinned nonce, tip, asset, recipient, amount), failing when no
explicit nonce is pinned. -/
def execEcho : BridgeExecutor :=
  ⟨fun signer asset recipient amount extra =>
    match extra.nonce with
    | some k => Except.ok (signer :: k :: extra.tip :: (asset ++ recipient ++ [amount]))
    | none => Except.error "MissingNonce"⟩

/-- Executor whose transfer always fails with a rich error string. -/
def execFail : BridgeExecutor :=
  ⟨fun _ _ _ _ _ => Except.error "DetailedExecutorError"⟩

/-- Context with signer 7 and the given registered bridge executor. -/
def ctxExec (e : Option BridgeExecutor) : Context :=
  ⟨7, [], [], fun _ => Except.ok 0, fun _ _ => Except.ok 0, fun _ => none,
    fun _ _ _ => Except.ok false, fun _ _ => e⟩

/-- Bridge step with recipient `[4, 5]`, asset `[1, 2]` and amount 9. -/
def stepRun : BridgeStep :=
  ⟨[1, 2], "Phala", [3], "Astar", 0, 0, 0, none, none, 9, some [4, 5]⟩

/-- Bridge step identical to `stepRun` but without a recipient. -/
def stepNoRecipient : BridgeStep :=
  ⟨[1, 2], "Phala", [3], "Astar", 0, 0, 0, none, none, 9, none⟩

/-- Indexer record whose account field is valid lowercase hex
(`0x04db` decodes to `[4, 219]`) and whose result flag is set. -/
def txGood : Tx := ⟨"0xabc", "0x04db", 1, true, 100, "123"⟩

/-- Indexer record whose account field is not valid hex after the `0x`
prefix, with result flag set. -/
def txBadHex : Tx := ⟨"0xdef", "0xzz", 1, true, 100, "123"⟩

/-- Transport oracle answering status 200 with an empty body. -/
def http200 : String → List Nat → Nat → HttpResponse := fun _ _ _ => ⟨200, []⟩

/-- Transport oracle answering status 404. -/
def http404 : String → List Nat → Nat → HttpResponse := fun _ _ _ => ⟨404, [9]⟩

/-- Parser oracle that yields the given transaction list. -/
def parseTxs (txs : List Tx) : List Nat → Option ResponseData := fun _ => some ⟨⟨txs⟩⟩

/-- Parser oracle for a body that does not deserialize. -/
def parseFail : List Nat → Option ResponseData := fun _ => none

/-- The 32-byte recipient of the xtransfer.rs `test_bridge_to_astar`
scenario (`0x04db...f276`). -/
def recipAstar : List Nat :=
  [0x04, 0xdb, 0xa0, 0x67, 0x7f, 0xc2, 0x74, 0xff, 0xac, 0xcc, 0x0f, 0xa1,
   0x03, 0x0a, 0x66, 0xb1, 0x71, 0xd1, 0xda, 0x92, 0x26, 0xd2, 0xbb, 0x9d,
   0x15, 0x26, 0x54, 0xe6, 0xa7, 0x46, 0xf2, 0x76]

/-- The instruction of the xtransfer.rs `test_bridge_to_astar` scenario:
asset `0x0000` on chain "Phala", 32-byte recipient, amount
2_000_000_000_000, destination Astar. -/
def stepBridgeToAstar : Step :=
  { exe := "", source_chain := "Phala", dest_chain := "Astar",
    spend_asset := [0x00, 0x00],
    receive_asset := [0x01, 0x01, 0x00, 0xcd, 0x1f],
    sender := none, recipient := some recipAstar,
    spend_amount := some 2000000000000, origin_balance := none, nonce := none }

/-- Expected extrinsic payload of the Astar scenario: pallet id `0x52`,
call id `0x00`, then the SCALE bytes of the multi-asset (Concrete Here,
fungible compact 2_000_000_000_000), the destination
`X2(Parachain 2006, AccountId32 None recipient)` under one parent, and
`Some(Weight::from_parts(6000000000, 1000000))`. -/
def xtransferAstarCalldata : List Nat :=
  [0x52, 0x00,
   0x00, 0x00, 0x00,
   0x00, 0x0b, 0x00, 0x20, 0x4a, 0xa9, 0xd1, 0x01,
   0x01, 0x02, 0x00, 0x59, 0x1f,
   0x01, 0x00] ++ recipAstar ++
  [0x01, 0x07, 0x00, 0xbc, 0xa0, 0x65, 0x01,
   0x02, 0x09, 0x3d, 0x00]

/-- The single call produced by the Astar scenario. -/
def c3Calls : List Call :=
  [Call.mk (CallParams.Sub (SubCall.mk xtransferAstarCalldata)) none none]

/-- An xtransfer instruction whose recipient has 31 bytes (one short of
the 32 demanded by `Account32`). -/
def stepRec31 : Step :=
  { exe := "", source_chain := "Phala", dest_chain := "Astar",
    spend_asset := [0, 0], receive_asset := [],
    sender := none, recipient := some (List.replicate 31 1),
    spend_amount := some 5, origin_balance := none, nonce := none }

/-- A polkadot-encoder instruction with a valid 20-byte recipient. -/
def pstepOk : Polkadot.Step :=
  { exe := "", source_chain := "Polkadot", dest_chain := "Phala",
    spend_asset := [0, 0], receive_asset := [1, 0],
    sender := none, recipient := List.replicate 20 7,
    spend_amount := some 5, origin_balance := none, nonce := none }

/-- The call produced by `PolkadotXcm::build_call` on `pstepOk` with
destination parachain 2035 and account type `Account20`. -/
def polkadotOkCall : Call :=
  Call.mk (CallParams.Sub (SubCall.mk
    ([99, 2, 1, 0, 1, 0, 205, 31, 1, 0, 1, 3, 0] ++ List.replicate 20 7 ++
     [1, 4, 0, 0, 0, 0, 20, 0, 0, 0, 0]))) none none

/-- A polkadot-encoder instruction whose recipient has 19 bytes (one
short of the 20 demanded by `Account20`). -/
def pstepRec19 : Polkadot.Step :=
  { pstepOk with recipient := List.replicate 19 2 }

/-! ## Reduction lemmas for the `Res` monad -/

lemma res_ok_bind {α β : Type} (a : α) (f : α → Res β) :
    (Except.ok a : Res α) >>= f = f a := rfl

lemma res_error_bind {α β : Type} (e : Err) (f : α → Res β) :
    (Except.error e : Res α) >>= f = Except.error e := rfl

lemma res_pure {α : Type} (a : α) : (pure a : Res α) = Except.ok a := rfl

/-! ## The claims -/

/-- Claim C1: for every `BridgeStep` and assigned nonce, `runnable`
returns `Ok(false)` whenever the queried on-chain nonce of the worker
account on the source chain exceeds the assigned nonce, regardless of
balance (the balance is not even queried); otherwise it returns
`Ok(true)` if and only if the worker's source-chain balance of the spend
asset is at least the step's amount, and `Ok(false)` if and only if the
balance is below the amount (so the boundary balance = amount is
runnable and balance = amount - 1 is not). -/
theorem C1_runnable_nonce_and_balance (step : BridgeStep) (nonce n : Nat)
    (ctx : Context)
    (hn : ctx.get_nonce step.source_chain = Except.ok n) :
    (n > nonce → step.runnable nonce ctx = Except.ok false) ∧
    (n ≤ nonce → ∀ b, ctx.get_balance step.source_chain step.«from» = Except.ok b →
      ((step.runnable nonce ctx = Except.ok true ↔ b ≥ step.amount) ∧
       (step.runnable nonce ctx = Except.ok false ↔ b < step.amount))) := by
  constructor
  · intro hgt
    simp [BridgeStep.runnable, hn, res_ok_bind, res_pure, hgt]
  · intro hle b hb
    have hnotgt : ¬ n > nonce := by omega
    constructor
    · simp [BridgeStep.runnable, hn, res_ok_bind, res_pure, hnotgt, hb]
    · simp [BridgeStep.runnable, hn, res_ok_bind, res_pure, hnotgt, hb]

/-- Witness for C1 at amount 5: balance 5 with matching nonce is
runnable, balance 4 is not, and an on-chain nonce of 7 against assigned
nonce 3 blocks the step even with a huge balance. -/
theorem C1_runnable_witness :
    BridgeStep.runnable stepAmount5 3 (ctxNB 3 5) = Except.ok true ∧
    BridgeStep.runnable stepAmount5 3 (ctxNB 3 4) = Except.ok false ∧
    BridgeStep.runnable stepAmount5 3 (ctxNB 7 100) = Except.ok false := by
  refine ⟨?_, ?_, ?_⟩
  · exact ((C1_runnable_nonce_and_balance stepAmount5 3 3 (ctxNB 3 5) rfl).2
      (by decide) 5 rfl).1.mpr (by decide)
  · exact ((C1_runnable_nonce_and_balance stepAmount5 3 3 (ctxNB 3 4) rfl).2
      (by decide) 4 rfl).2.mpr (by decide)
  · exact (C1_runnable_nonce_and_balance stepAmount5 3 7 (ctxNB 7 100) rfl).1
      (by decide)

/-- Counterexample to claim C2 as stated: `stepUnderflow` has both
baselines present (`b0 = 5`, `b1 = 0`), the indexer reports
settled-with-success, the destination balance (1) exceeds `b1`, but the
live source balance (6) rose above `b0`, so the source-balance condition
fails; the claim demands `Ok(false)`, yet `check` aborts in the `u128`
subtraction `b0 - latest_b0` instead of returning. -/
theorem C2_check_counterexample :
    stepUnderflow.b0 = some 5 ∧ stepUnderflow.b1 = some 0 ∧
    BridgeStep.check stepUnderflow 0 ctxSettledGain = Except.error Err.panicArith :=
  ⟨rfl, rfl, rfl⟩

/-- Claim C2 (amended): with both baselines present and the relevant
queries answering, `check` returns `Ok(true)` exactly when the indexer
reports settled-with-success, the source balance dropped by exactly
`amount` from `b0`, and the destination balance exceeds `b1`; when
settled and the live source balance does not exceed `b0`, any failing
condition yields `Ok(false)`; when not settled the result is
`Ok(false)`; but when settled and the live source balance exceeds `b0`,
the `u128` subtraction underflows and `check` panics instead of
returning `Ok(false)`. -/
theorem C2_check_conditions (step : BridgeStep) (nonce : Nat) (ctx : Context)
    (chain : Chain) (settled : Bool) (lb0 lb1 b0 b1 : Nat)
    (hchain : ctx.get_chain step.source_chain = some chain)
    (htx : ctx.check_tx chain.tx_indexer_url
      (match chain.chain_type with
        | ChainType.Evm => ctx.account20
        | ChainType.Sub => ctx.account32) nonce = Except.ok settled)
    (hlb0 : ctx.get_balance step.source_chain step.«from» = Except.ok lb0)
    (hlb1 : ctx.get_balance step.dest_chain step.«to» = Except.ok lb1)
    (hb0 : step.b0 = some b0) (hb1 : step.b1 = some b1) :
    (step.check nonce ctx = Except.ok true ↔
      settled = true ∧ lb0 ≤ b0 ∧ b0 - lb0 = step.amount ∧ lb1 > b1) ∧
    (settled = true → lb0 ≤ b0 → (b0 - lb0 ≠ step.amount ∨ ¬ lb1 > b1) →
      step.check nonce ctx = Except.ok false) ∧
    (settled = false → step.check nonce ctx = Except.ok false) ∧
    (settled = true → b0 < lb0 → step.check nonce ctx = Except.error Err.panicArith) := by
  have hchk : step.check nonce ctx =
      if settled then
        if lb0 ≤ b0 then
          Except.ok (decide (b0 - lb0 = step.amount) && decide (lb1 > b1))
        else Except.error Err.panicArith
      else Except.ok false := by
    cases settled <;>
      simp [BridgeStep.check, okOr, hchain, res_ok_bind, res_pure, htx, hlb0, hlb1,
        hb0, hb1]
  refine ⟨?_, ?_, ?_, ?_⟩
  · rw [hchk]
    cases settled <;> by_cases h : lb0 ≤ b0 <;> simp [h]
  · intro hs hle hfail
    rw [hchk, hs]
    simp [hle]
    rcases hfail with h | h
    · intro he; exact absurd he h
    · intro _; omega
  · intro hs; rw [hchk, hs]; simp
  · intro hs hlt; rw [hchk, hs]
    simp [Nat.not_le.mpr hlt]

/-- Witness for C2 (amended): with baseline 5, live source balance 4
(a drop of exactly the amount 1) and destination balance 1 above the
baseline 0, the settled step is confirmed. -/
theorem C2_check_witness :
    BridgeStep.check stepUnderflow 0 ctxSettledDrop = Except.ok true :=
  (C2_check_conditions stepUnderflow 0 ctxSettledDrop chainSub true 4 1 5 0
    rfl rfl rfl rfl rfl rfl).1.mpr ⟨rfl, by decide, by decide, by decide⟩

/-- Claim C3: on the Astar scenario (asset `0x0000` on "Phala", 32-byte
recipient, amount 2_000_000_000_000, destination parachain 2006 with
`Account32`), the encoder produces exactly one Substrate extrinsic call
with pallet id `0x52` and call id `0x00` followed by the SCALE encoding
of the tuple (multi-asset, `X2(Parachain 2006, AccountId32 recipient)`,
`Some(Weight::from_parts(6000000000, 1000000))`), byte for byte. -/
theorem C3_xtransfer_astar_payload :
    XTransferXcm.build_call ⟨2006, AccountType.Account32⟩ stepBridgeToAstar =
      Except.ok [Call.mk (CallParams.Sub (SubCall.mk (SubExtrinsic.encode
        ⟨0x52, 0x00,
          XcmV3.encodeMultiAsset
            ⟨XcmV3.AssetId.Concrete ⟨0, XcmV3.Junctions.Here⟩,
             XcmV3.Fungibility.Fungible 2000000000000⟩ ++
          XcmV3.encodeMultiLocation
            ⟨1, XcmV3.Junctions.X2 (XcmV3.Junction.Parachain 2006)
              (XcmV3.Junction.AccountId32 none recipAstar)⟩ ++
          encodeOption XcmV3.encodeWeight
            (some (XcmV3.Weight.from_parts 6000000000 1000000))⟩))) none none] ∧
    XTransferXcm.build_call ⟨2006, AccountType.Account32⟩ stepBridgeToAstar =
      Except.ok c3Calls :=
  ⟨rfl, by decide⟩

/-- Claim C4: both encoders reject a present recipient whose byte length
differs from the account type's required length (20 or 32) with the
fatal `InvalidRecipient` error — provided the instruction is otherwise
well-formed enough to reach the conversion (decodable spend asset, and
for `XTransferXcm` a present spend amount, which the source consumes
first) — and every successful encoding implies the recipient had exactly
the required length, so no truncation or padding ever occurs. -/
theorem C4_recipient_length_validation :
    (∀ (enc : XTransferXcm) (step : Step) (r : List Nat)
       (loc : XcmV3.MultiLocation) (rest : List Nat) (amt : Nat),
      step.recipient = some r →
      XcmV3.decodeMultiLocation step.spend_asset = some (loc, rest) →
      step.spend_amount = some amt →
      r.length ≠ requiredLen enc.account_type →
      enc.build_call step = Except.error (Err.msg "InvalidRecipient")) ∧
    (∀ (enc : PolkadotXcm) (step : Polkadot.Step)
       (loc : XcmV2.MultiLocation) (rest : List Nat),
      XcmV2.decodeMultiLocation step.spend_asset = some (loc, rest) →
      step.recipient.length ≠ requiredLen enc.account_type →
      enc.build_call step = Except.error (Err.msg "InvalidRecipient")) ∧
    (∀ (enc : XTransferXcm) (step : Step) (calls : List Call) (r : List Nat),
      enc.build_call step = Except.ok calls →
      step.recipient = some r →
      r.length = requiredLen enc.account_type) ∧
    (∀ (enc : PolkadotXcm) (step : Polkadot.Step) (call : Call),
      enc.build_call step = Except.ok call →
      step.recipient.length = requiredLen enc.account_type) := by
  refine ⟨?_, ?_, ?_, ?_⟩
  · intro enc step r loc rest amt hr hdec hamt hlen
    cases hat : enc.account_type <;>
      simp [hat, requiredLen] at hlen <;>
      simp [XTransferXcm.build_call, okOr, hr, hdec, hamt, hat, to_array, hlen,
        res_ok_bind, res_error_bind, res_pure]
  · intro enc step loc rest hdec hlen
    cases hat : enc.account_type <;>
      simp [hat, requiredLen] at hlen <;>
      simp [PolkadotXcm.build_call, okOr, hdec, hat, to_array, hlen,
        res_ok_bind, res_error_bind, res_pure]
  · intro enc step calls r hok hr
    rcases hdec : XcmV3.decodeMultiLocation step.spend_asset with _ | ⟨loc, rest⟩ <;>
      rcases hamt : step.spend_amount with _ | amt <;>
      cases hat : enc.account_type <;>
      simp [XTransferXcm.build_call, okOr, hr, hdec, hamt, hat, to_array,
        res_ok_bind, res_error_bind, res_pure, requiredLen] at hok ⊢ <;>
      by_cases hl : r.length = requiredLen enc.account_type <;>
      simp [hat, requiredLen] at hl ⊢ <;>
      simp [hl, res_error_bind, res_ok_bind, res_pure] at hok ⊢
  · intro enc step call hok
    rcases hdec : XcmV2.decodeMultiLocation step.spend_asset with _ | ⟨loc, rest⟩ <;>
      rcases hamt : step.spend_amount with _ | amt <;>
      cases hat : enc.account_type <;>
      simp [PolkadotXcm.build_call, okOr, hdec, hamt, hat, to_array,
        res_ok_bind, res_error_bind, res_pure, requiredLen] at hok ⊢ <;>
      by_cases hl : step.recipient.length = requiredLen enc.account_type <;>
      simp [hat, requiredLen] at hl ⊢ <;>
      simp [hl, res_error_bind, res_ok_bind, res_pure] at hok ⊢

/-- Witness for C4: a 31-byte recipient against `Account32` and a 19-byte
recipient against `Account20` are rejected with `InvalidRecipient`,
while the successful Astar and Polkadot encodings had recipients of
exactly 32 and 20 bytes. -/
theorem C4_recipient_witness :
    XTransferXcm.build_call ⟨2006, AccountType.Account32⟩ stepRec31 =
      Except.error (Err.msg "InvalidRecipient") ∧
    PolkadotXcm.build_call ⟨2035, AccountType.Account20⟩ pstepRec19 =
      Except.error (Err.msg "InvalidRecipient") ∧
    recipAstar.length = requiredLen AccountType.Account32 ∧
    pstepOk.recipient.length = requiredLen AccountType.Account20 := by
  refine ⟨?_, ?_, ?_, ?_⟩
  · exact C4_recipient_length_validation.1 ⟨2006, AccountType.Account32⟩
      stepRec31 (List.replicate 31 1) ⟨0, XcmV3.Junctions.Here⟩ [] 5
      rfl rfl rfl (by decide)
  · exact C4_recipient_length_validation.2.1 ⟨2035, AccountType.Account20⟩
      pstepRec19 ⟨0, XcmV2.Junctions.Here⟩ [] rfl (by decide)
  · exact C4_recipient_length_validation.2.2.1 ⟨2006, AccountType.Account32⟩
      stepBridgeToAstar c3Calls recipAstar (by decide) rfl
  · exact C4_recipient_length_validation.2.2.2 ⟨2035, AccountType.Account20⟩
      pstepOk polkadotOkCall (by decide)

/-- Claim C5: in the settled branch of `BridgeStep::check` (baselines
present, queries answering), the unsigned subtraction `b0 - latest_b0`
is well-defined exactly when `latest_b0 ≤ b0` — `check` panics if and
only if the live source balance exceeds the stored baseline — and the
panic is reachable: in the concrete settled context where the worker
received funds after the baseline snapshot (balance 6 against baseline
5), `check` aborts instead of returning. -/
theorem C5_check_underflow_panic :
    (∀ (step : BridgeStep) (nonce : Nat) (ctx : Context) (chain : Chain)
       (lb0 lb1 b0 b1 : Nat),
      ctx.get_chain step.source_chain = some chain →
      ctx.check_tx chain.tx_indexer_url
        (match chain.chain_type with
          | ChainType.Evm => ctx.account20
          | ChainType.Sub => ctx.account32) nonce = Except.ok true →
      ctx.get_balance step.source_chain step.«from» = Except.ok lb0 →
      ctx.get_balance step.dest_chain step.«to» = Except.ok lb1 →
      step.b0 = some b0 → step.b1 = some b1 →
      (step.check nonce ctx = Except.error Err.panicArith ↔ b0 < lb0)) ∧
    BridgeStep.check stepUnderflow 0 ctxSettledGain = Except.error Err.panicArith := by
  constructor
  · intro step nonce ctx chain lb0 lb1 b0 b1 hchain htx hlb0 hlb1 hb0 hb1
    by_cases h : lb0 ≤ b0 <;>
      simp [BridgeStep.check, okOr, hchain, htx, hlb0, hlb1, hb0, hb1, h,
        res_ok_bind, res_error_bind, res_pure] <;>
      omega
  · rfl

/-- Witness for C5 at the concrete underflow input (baseline 5, live
balance 6). -/
theorem C5_check_underflow_witness :
    BridgeStep.check stepUnderflow 0 ctxSettledGain = Except.error Err.panicArith ↔
      5 < 6 :=
  C5_check_underflow_panic.1 stepUnderflow 0 ctxSettledGain chainSub 6 1 5 0
    rfl rfl rfl rfl rfl rfl

/-- Counterexample to claim C6 as stated: `stepNoB0` has both baselines
absent, yet when the indexer reports the transaction not settled,
`check` returns the boolean `Ok(false)` instead of failing with
`MissingB0`. -/
theorem C6_missing_baseline_counterexample :
    stepNoB0.b0 = none ∧ stepNoB0.b1 = none ∧
    BridgeStep.check stepNoB0 0 ctxNotSettled = Except.ok false :=
  ⟨rfl, rfl, rfl⟩

/-- Claim C6 (amended): when the indexer reports settled-with-success
(and the balance queries answer), an absent `b0` makes `check` fail with
`MissingB0`, and a present `b0` with absent `b1` makes it fail with
`MissingB1` — the absent baseline is never treated as zero; but when the
transaction is not settled, `check` returns `Ok(false)` without reading
the baselines at all. -/
theorem C6_missing_baseline_errors (step : BridgeStep) (nonce : Nat)
    (ctx : Context) (chain : Chain) (lb0 lb1 : Nat)
    (hchain : ctx.get_chain step.source_chain = some chain)
    (htx : ctx.check_tx chain.tx_indexer_url
      (match chain.chain_type with
        | ChainType.Evm => ctx.account20
        | ChainType.Sub => ctx.account32) nonce = Except.ok true)
    (hlb0 : ctx.get_balance step.source_chain step.«from» = Except.ok lb0)
    (hlb1 : ctx.get_balance step.dest_chain step.«to» = Except.ok lb1) :
    (step.b0 = none → step.check nonce ctx = Except.error (Err.msg "MissingB0")) ∧
    (∀ b0, step.b0 = some b0 → step.b1 = none →
      step.check nonce ctx = Except.error (Err.msg "MissingB1")) := by
  constructor
  · intro hb0
    simp [BridgeStep.check, okOr, hchain, htx, hlb0, hlb1, hb0,
      res_ok_bind, res_error_bind, res_pure]
  · intro b0 hb0 hb1
    simp [BridgeStep.check, okOr, hchain, htx, hlb0, hlb1, hb0, hb1,
      res_ok_bind, res_error_bind, res_pure]

/-- Witness for C6 (amended): in the settled context, the step without
`b0` fails with `MissingB0` and the step with `b0` but no `b1` fails
with `MissingB1`. -/
theorem C6_missing_baseline_witness :
    BridgeStep.check stepNoB0 0 ctxSettledGain = Except.error (Err.msg "MissingB0") ∧
    BridgeStep.check stepNoB1 0 ctxSettledGain = Except.error (Err.msg "MissingB1") := by
  constructor
  · exact (C6_missing_baseline_errors stepNoB0 0 ctxSettledGain chainSub 6 1
      rfl rfl rfl rfl).1 rfl
  · exact (C6_missing_baseline_errors stepNoB1 0 ctxSettledGain chainSub 6 1
      rfl rfl rfl rfl).2 5 rfl rfl

/-- Claim C7: with a recipient present and an executor registered for the
(source, dest) pair, `run` is exactly the executor's transfer primitive
applied to the signer, the step's asset, recipient and amount, and the
extra-parameter bundle `{ tip := 0, nonce := Some(nonce), era := None }`
that pins the assigned nonce (with only the error collapsed to
`BridgeFailed`) — so a retried `run` with the same nonce reproduces the
same transaction identity. -/
theorem C7_run_pins_nonce (step : BridgeStep) (nonce : Nat) (ctx : Context)
    (r : List Nat) (exec : BridgeExecutor)
    (hr : step.recipient = some r)
    (hx : ctx.get_bridge_executor step.source_chain step.dest_chain = some exec) :
    step.run nonce ctx =
      match exec.transfer ctx.signer step.«from» r step.amount
          ⟨0, some nonce, none⟩ with
      | Except.ok tx_id => Except.ok tx_id
      | Except.error _ => Except.error (Err.msg "BridgeFailed") := by
  cases htr : exec.transfer ctx.signer step.«from» r step.amount ⟨0, some nonce, none⟩ <;>
    simp [BridgeStep.run, okOr, hr, hx, res_ok_bind, res_error_bind, res_pure, htr]

/-- Witness for C7: an executor that echoes its arguments shows `run`
passing signer 7, pinned nonce 11, tip 0, asset `[1, 2]`, recipient
`[4, 5]` and amount 9, in that exact bundle. -/
theorem C7_run_witness :
    BridgeStep.run stepRun 11 (ctxExec (some execEcho)) =
      Except.ok (7 :: 11 :: 0 :: ([1, 2] ++ [4, 5] ++ [9])) := by
  have h := C7_run_pins_nonce stepRun 11 (ctxExec (some execEcho)) [4, 5] execEcho
    rfl rfl
  exact h.trans (by rfl)

/-- Counterexample to claim C8 as stated: a successfully parsed response
holding exactly one matching record whose success flag is `true` but
whose account string is not valid hex after the `0x` prefix makes
`check_tx` fail with `InvalidAddress` instead of returning that record's
success flag. -/
theorem C8_check_tx_counterexample :
    txBadHex.result = true ∧
    check_tx "idx" [1] 1 http200 (parseTxs [txBadHex]) =
      Except.error (Err.msg "InvalidAddress") :=
  ⟨rfl, rfl⟩

/-- Claim C8 (amended): for a 200 response whose body parses, `check_tx`
returns `Ok(false)` on zero records, `Ok(r)` (the record's success flag)
on exactly one record whose account field hex-decodes after its first
two characters, `Err(InvalidAddress)` on exactly one record whose
account field does not hex-decode, and `Ok(false)` on more than one
record. -/
theorem C8_check_tx_cases (indexer : String) (account : List Nat) (nonce : Nat)
    (http : String → List Nat → Nat → HttpResponse)
    (parseBody : List Nat → Option ResponseData) (resp : ResponseData)
    (hstatus : (http indexer account nonce).status_code = 200)
    (hparse : parseBody (http indexer account nonce).body = some resp) :
    (resp.data.transactions = [] →
      check_tx indexer account nonce http parseBody = Except.ok false) ∧
    (∀ tx bytes, resp.data.transactions = [tx] → 2 ≤ tx.account.length →
      hexDecodeChars (tx.account.toList.drop 2) = some bytes →
      check_tx indexer account nonce http parseBody = Except.ok tx.result) ∧
    (∀ tx, resp.data.transactions = [tx] → 2 ≤ tx.account.length →
      hexDecodeChars (tx.account.toList.drop 2) = none →
      check_tx indexer account nonce http parseBody =
        Except.error (Err.msg "InvalidAddress")) ∧
    (∀ t1 t2 rest, resp.data.transactions = t1 :: t2 :: rest →
      check_tx indexer account nonce http parseBody = Except.ok false) := by
  refine ⟨?_, ?_, ?_, ?_⟩
  · intro htxs
    simp [check_tx, get_tx, send_request, okOr, hstatus, hparse, htxs,
      res_ok_bind, res_pure]
  · intro tx bytes htxs hlen hdec
    have hdec2 : hexDecodeChars (List.drop 2 tx.account.data) = some bytes := hdec
    simp [check_tx, get_tx, send_request, okOr, hstatus, hparse, htxs,
      Nat.not_lt.mpr hlen, hdec2, res_ok_bind, res_pure]
  · intro tx htxs hlen hdec
    have hdec2 : hexDecodeChars (List.drop 2 tx.account.data) = none := hdec
    simp [check_tx, get_tx, send_request, okOr, hstatus, hparse, htxs,
      Nat.not_lt.mpr hlen, hdec2, res_ok_bind, res_error_bind, res_pure]
  · intro t1 t2 rest htxs
    simp [check_tx, get_tx, send_request, okOr, hstatus, hparse, htxs,
      res_ok_bind, res_pure]

/-- Witness for C8 (amended): zero records map to not settled, one
well-formed record yields its success flag, one record with invalid hex
yields `InvalidAddress`, and two records map back to not settled. -/
theorem C8_check_tx_witness :
    check_tx "idx" [1] 1 http200 (parseTxs []) = Except.ok false ∧
    check_tx "idx" [1] 1 http200 (parseTxs [txGood]) = Except.ok true ∧
    check_tx "idx" [1] 1 http200 (parseTxs [txBadHex]) =
      Except.error (Err.msg "InvalidAddress") ∧
    check_tx "idx" [1] 1 http200 (parseTxs [txGood, txGood]) = Except.ok false := by
  refine ⟨?_, ?_, ?_, ?_⟩
  · exact (C8_check_tx_cases "idx" [1] 1 http200 (parseTxs []) ⟨⟨[]⟩⟩
      rfl rfl).1 rfl
  · exact (C8_check_tx_cases "idx" [1] 1 http200 (parseTxs [txGood]) ⟨⟨[txGood]⟩⟩
      rfl rfl).2.1 txGood [4, 219] rfl (by decide) rfl
  · exact (C8_check_tx_cases "idx" [1] 1 http200 (parseTxs [txBadHex]) ⟨⟨[txBadHex]⟩⟩
      rfl rfl).2.2.1 txBadHex rfl (by decide) rfl
  · exact (C8_check_tx_cases "idx" [1] 1 http200 (parseTxs [txGood, txGood])
      ⟨⟨[txGood, txGood]⟩⟩ rfl rfl).2.2.2 txGood txGood [] rfl

/-- Claim C9: a non-200 HTTP status makes `check_tx` fail with
`CallIndexerFailed`, and a 200 response whose body does not parse makes
it fail with `InvalidBody`; each is a distinct hard error, never the
`Ok(false)` "not settled" result. -/
theorem C9_indexer_hard_failures (indexer : String) (account : List Nat)
    (nonce : Nat) (http : String → List Nat → Nat → HttpResponse)
    (parseBody : List Nat → Option ResponseData) :
    ((http indexer account nonce).status_code ≠ 200 →
      check_tx indexer account nonce http parseBody =
        Except.error (Err.msg "CallIndexerFailed")) ∧
    ((http indexer account nonce).status_code = 200 →
      parseBody (http indexer account nonce).body = none →
      check_tx indexer account nonce http parseBody =
        Except.error (Err.msg "InvalidBody")) := by
  constructor
  · intro hst
    simp [check_tx, get_tx, send_request, okOr, hst, res_error_bind]
  · intro hst hp
    simp [check_tx, get_tx, send_request, okOr, hst, hp, res_ok_bind, res_error_bind]

/-- Witness for C9: a 404 response yields `CallIndexerFailed`, a 200
response with an unparsable body yields `InvalidBody`. -/
theorem C9_indexer_witness :
    check_tx "idx" [1] 1 http404 (parseTxs []) =
      Except.error (Err.msg "CallIndexerFailed") ∧
    check_tx "idx" [1] 1 http200 parseFail = Except.error (Err.msg "InvalidBody") := by
  constructor
  · exact (C9_indexer_hard_failures "idx" [1] 1 http404 (parseTxs [])).1 (by decide)
  · exact (C9_indexer_hard_failures "idx" [1] 1 http200 parseFail).2 rfl rfl

/-- Claim C10: `run` fails with `MissingRecipient` when the recipient is
absent, with `MissingExecutor` when no bridge executor is registered for
the (source, dest) pair, and maps every failure of the executor's
transfer primitive — whatever its richer error — to the single
`BridgeFailed` kind. -/
theorem C10_run_error_mapping (step : BridgeStep) (nonce : Nat) (ctx : Context) :
    (step.recipient = none →
      step.run nonce ctx = Except.error (Err.msg "MissingRecipient")) ∧
    (∀ r, step.recipient = some r →
      ctx.get_bridge_executor step.source_chain step.dest_chain = none →
      step.run nonce ctx = Except.error (Err.msg "MissingExecutor")) ∧
    (∀ r exec e, step.recipient = some r →
      ctx.get_bridge_executor step.source_chain step.dest_chain = some exec →
      exec.transfer ctx.signer step.«from» r step.amount ⟨0, some nonce, none⟩ =
        Except.error e →
      step.run nonce ctx = Except.error (Err.msg "BridgeFailed")) := by
  refine ⟨?_, ?_, ?_⟩
  · intro hr
    simp [BridgeStep.run, okOr, hr, res_error_bind]
  · intro r hr hx
    simp [BridgeStep.run, okOr, hr, hx, res_ok_bind, res_error_bind]
  · intro r exec e hr hx htr
    simp [BridgeStep.run, okOr, hr, hx, htr, res_ok_bind, res_error_bind, res_pure]

/-- Witness for C10: the step without recipient fails with
`MissingRecipient`; with no registered executor, `MissingExecutor`; and
the executor failing with the rich string "DetailedExecutorError" is
collapsed to `BridgeFailed`. -/
theorem C10_run_witness :
    BridgeStep.run stepNoRecipient 11 (ctxExec (some execEcho)) =
      Except.error (Err.msg "MissingRecipient") ∧
    BridgeStep.run stepRun 11 (ctxExec none) =
      Except.error (Err.msg "MissingExecutor") ∧
    BridgeStep.run stepRun 11 (ctxExec (some execFail)) =
      Except.error (Err.msg "BridgeFailed") := by
  refine ⟨?_, ?_, ?_⟩
  · exact (C10_run_error_mapping stepNoRecipient 11 (ctxExec (some execEcho))).1 rfl
  · exact (C10_run_error_mapping stepRun 11 (ctxExec none)).2.1 [4, 5] rfl rfl
  · exact (C10_run_error_mapping stepRun 11 (ctxExec (some execFail))).2.2
      [4, 5] execFail "DetailedExecutorError" rfl rfl rfl

end IndexContract
